import Mathlib

/-!
Shallow embedding of the admission-control and routing layer of the
mind-mentor API server (src/server/index.js): the global and AI-route
rate limiters, the CORS policy filter, the path dispatcher, the two
health handlers and the error boundary.

The configuration values (limiter window and ceiling, limiter message,
CORS allow-list, methods and headers, mount paths) are taken from
src/server/index.js.  The behaviour of the third-party middleware the
file instantiates (express-rate-limit, cors, Express routing and body
parsing) is not part of src/, so those algorithms are modelled from the
specification, as marked on the individual definitions.
-/

set_option autoImplicit false
set_option maxRecDepth 4000

namespace MindMentor

/-- A response body: empty, plain text, or a flat JSON object rendered as
an association list of string fields. -/
inductive Body where
  | empty : Body
  | text : String → Body
  | json : List (String × String) → Body
  deriving DecidableEq

/-- An HTTP response as the core produces it. -/
structure Response where
  status : Nat
  body : Body
  deriving DecidableEq

/-- Per-client, per-limiter window state (spec data model). -/
structure WindowCounter where
  count : Nat
  windowStart : Nat
  deriving DecidableEq

/-- Configuration of one limiter instance. -/
structure LimiterConfig where
  windowDurationMs : Nat
  maxRequests : Nat
  message : String
  standardHeaders : Bool
  legacyHeaders : Bool
  deriving DecidableEq

/-- The global rate limiter configuration (src/server/index.js lines
49-56): a 15 minute window, 100 requests per window, the configured
rejection message. -/
def limiter : LimiterConfig :=
  { windowDurationMs := 15 * 60 * 1000,
    maxRequests := 100,
    message := "Too many requests from this IP, please try again after 15 minutes",
    standardHeaders := true,
    legacyHeaders := false }

/-- Result of one limiter check (spec contract for `check`). -/
structure CheckResult where
  allowed : Bool
  remaining : Nat
  resetAt : Nat
  deriving DecidableEq

/-- A limiter instance's private store: ClientKey to WindowCounter. -/
abbrev LimiterState := List (String × WindowCounter)

def lookupKey : LimiterState → String → Option WindowCounter
  | [], _ => none
  | (k, c) :: rest, key => if k = key then some c else lookupKey rest key

def insertKey : LimiterState → String → WindowCounter → LimiterState
  | [], key, c => [(key, c)]
  | (k, c0) :: rest, key, c =>
      if k = key then (key, c) :: rest else (k, c0) :: insertKey rest key c

/-- Modelled from the spec: the fixed-window counting check of
express-rate-limit (the library itself is not under src/).  A window
starts at the first request from a key; the counter is reset and the
window start advanced once the current time exceeds the window start
plus the window duration; the count increments on every check
regardless of outcome; the check admits while the incremented count is
at most the configured maximum. -/
def wcCheck (cfg : LimiterConfig) (c : Option WindowCounter) (now : Nat) :
    CheckResult × WindowCounter :=
  let c0 : WindowCounter :=
    match c with
    | none => { count := 0, windowStart := now }
    | some c =>
        if c.windowStart + cfg.windowDurationMs < now then
          { count := 0, windowStart := now }
        else c
  let c1 : WindowCounter := { c0 with count := c0.count + 1 }
  ({ allowed := c1.count ≤ cfg.maxRequests,
     remaining := cfg.maxRequests - c1.count,
     resetAt := c1.windowStart + cfg.windowDurationMs }, c1)

/-- One check against a limiter instance's keyed store. -/
def limiterCheck (cfg : LimiterConfig) (s : LimiterState) (key : String) (now : Nat) :
    CheckResult × LimiterState :=
  let (r, c) := wcCheck cfg (lookupKey s key) now
  (r, insertKey s key c)

/-- The response a limiter emits when it rejects: HTTP 429 carrying the
configured message. -/
def rejectResponse (cfg : LimiterConfig) : Response :=
  { status := 429, body := .text cfg.message }

/-- One limiter stage step: `none` means the request is admitted and
passed to the next stage, `some r` means the limiter short-circuits
with response `r`. -/
def limiterStep (cfg : LimiterConfig) (s : LimiterState) (key : String) (now : Nat) :
    Option Response × LimiterState :=
  let (r, s') := limiterCheck cfg s key now
  (if r.allowed then none else some (rejectResponse cfg), s')

/-- Run a sequence of requests from a single client key, at the given
times, through one limiter instance. -/
def runSteps (cfg : LimiterConfig) (s : LimiterState) (key : String) :
    List Nat → List (Option Response) × LimiterState
  | [] => ([], s)
  | t :: ts =>
      let step := limiterStep cfg s key t
      let (os, sf) := runSteps cfg step.2 key ts
      (step.1 :: os, sf)

/-- Run an interleaved sequence of keyed requests through one limiter
instance, recording each request's key with its check result. -/
def runLimiter (cfg : LimiterConfig) (s : LimiterState) :
    List (String × Nat) → List (String × CheckResult) × LimiterState
  | [] => ([], s)
  | (k, t) :: rest =>
      let step := limiterCheck cfg s k t
      let (rs, sf) := runLimiter cfg step.2 rest
      ((k, step.1) :: rs, sf)

/-- An error object surfaced to the error boundary: its message, and the
status it may itself carry (for instance the 400 a body-parse failure
carries), which the boundary never consults. -/
structure Err where
  message : String
  status : Option Nat
  deriving DecidableEq

/-- The 500 envelope the boundary sends (src/server/index.js line 98). -/
def boundaryRespond (e : Err) : Response :=
  { status := 500,
    body := .json [("error", "Something went wrong!"), ("details", e.message)] }

/-- What the error boundary does with an error: emit one response and
terminate the request, or delegate to the platform default unwind. -/
inductive BoundaryOutcome where
  | respond : Response → BoundaryOutcome
  | delegate : Err → BoundaryOutcome
  deriving DecidableEq

/-- The error-handling middleware (src/server/index.js lines 92-99): if
response headers were already sent, delegate to the default handler,
otherwise send status 500 with the JSON envelope. -/
def errorBoundary (e : Err) (headersSent : Bool) : BoundaryOutcome :=
  if headersSent then .delegate e else .respond (boundaryRespond e)

/-- CORS configuration shape. -/
structure CorsOptions where
  origin : List String
  credentials : Bool
  methods : List String
  allowedHeaders : List String
  deriving DecidableEq

/-- The CORS configuration (src/server/index.js lines 33-46). -/
def corsOptions : CorsOptions :=
  { origin := ["https://mind-mentor-pearl.vercel.app",
               "https://mind-mentor.kartiklabhshetwar.me",
               "http://localhost:3000",
               "https://www.mind-mentor.ink",
               "https://mind-mentor.ink"],
    credentials := true,
    methods := ["GET", "POST", "PUT", "PATCH", "DELETE"],
    allowedHeaders := ["Content-Type", "Authorization"] }

/-- The CORS headers attached to a response. -/
structure CorsResult where
  allowOrigin : Option String
  allowCredentials : Bool
  allowMethods : List String
  allowHeaders : List String
  deriving DecidableEq

/-- Modelled from the spec: the cors middleware (the cors package is not
under src/).  A request origin exactly matching the allow-list is
echoed back in the allowed-origin header with credentials allowed; any
other (or absent) origin gets no allowed-origin header; the filter
never rejects a request server-side. -/
def corsApply (opts : CorsOptions) (origin : Option String) : CorsResult :=
  match origin with
  | none =>
      { allowOrigin := none, allowCredentials := false,
        allowMethods := opts.methods, allowHeaders := opts.allowedHeaders }
  | some o =>
      if o ∈ opts.origin then
        { allowOrigin := some o, allowCredentials := opts.credentials,
          allowMethods := opts.methods, allowHeaders := opts.allowedHeaders }
      else
        { allowOrigin := none, allowCredentials := false,
          allowMethods := opts.methods, allowHeaders := opts.allowedHeaders }

/-- Whether a request body parses as JSON; a malformed body carries the
parse-failure message. -/
inductive JsonBody where
  | wellFormed : JsonBody
  | malformed : String → JsonBody
  deriving DecidableEq

/-- An inbound request as the core sees it: method, path, declared
origin, the resolved client key (the identity resolver's output), and
its body's parse status. -/
structure Request where
  method : String
  path : String
  origin : Option String
  clientKey : String
  body : JsonBody
  deriving DecidableEq

/-- The three mounted handler groups (src/server/index.js lines 87-89). -/
inductive RouteId where
  | generatePlan
  | curateResources
  | pdfChat
  deriving DecidableEq

/-- Where the dispatcher sends a request. -/
inductive RouteTarget where
  | ai : RouteId → RouteTarget
  | healthRoot : RouteTarget
  | healthCheck : RouteTarget
  | notFound : RouteTarget
  deriving DecidableEq

/-- Does the mount path consume the request path up to its end or up to a
path-segment boundary?  (Express app.use mount semantics: `/pdf`
matches `/pdf`, `/pdf/x`, but not `/pdfx`.) -/
def charsMatch : List Char → List Char → Bool
  | [], [] => true
  | [], c :: _ => c = '/'
  | _ :: _, [] => false
  | c :: cs, d :: ds => c = d && charsMatch cs ds

def mountMatch (pre path : String) : Bool :=
  charsMatch pre.data path.data

/-- Modelled from the spec: path dispatch over the mounts of
src/server/index.js lines 63-89 (Express routing is not under src/).
The three registered route mounts are checked first; unmatched paths
fall through to the two health handlers on exact match, else to a
not-found outcome. -/
def routeRequest (method path : String) : RouteTarget :=
  if mountMatch "/generate-plan" path then .ai .generatePlan
  else if mountMatch "/curate-resources" path then .ai .curateResources
  else if mountMatch "/pdf" path then .ai .pdfChat
  else if method = "GET" && path = "/" then .healthRoot
  else if method = "GET" && path = "/health" then .healthCheck
  else .notFound

/-- The fixed payload of the health handlers. -/
def healthPayload : List (String × String) :=
  [("status", "ok"), ("message", "Mind Mentor API is running")]

/-- GET / handler (src/server/index.js lines 68-70). -/
def healthRootResponse : Response :=
  { status := 200, body := .json healthPayload }

/-- GET /health handler (src/server/index.js lines 73-79); the ISO
rendering of the capture time is abstracted as its decimal rendering. -/
def healthCheckResponse (now : Nat) : Response :=
  { status := 200, body := .json (healthPayload ++ [("timestamp", toString now)]) }

/-- The not-found outcome for unmatched paths. -/
def notFoundResponse : Response :=
  { status := 404, body := .empty }

/-- Run an opaque handler group; a handler failure is forwarded to the
error boundary with no bytes of the response written yet. -/
def dispatchHandler (handle : RouteId → Request → Except Err Response)
    (rid : RouteId) (req : Request) : Response :=
  match handle rid req with
  | .ok r => r
  | .error e => boundaryRespond e

/-- The pipeline stages named by the spec's ordering guarantee. -/
inductive Stage where
  | identity
  | cors
  | globalLimiter
  | router
  | aiLimiter
  | handler
  deriving DecidableEq

/-- The canonical stage order of the spec. -/
def stageOrder : List Stage :=
  [.identity, .cors, .globalLimiter, .router, .aiLimiter, .handler]

/-- The two limiter instances' private stores. -/
structure AppState where
  globalLim : LimiterState
  aiLim : LimiterState
  deriving DecidableEq

def emptyAppState : AppState := { globalLim := [], aiLim := [] }

/-- Everything observable about processing one request: the response,
the CORS headers attached (none when the request dies in body parsing,
before the CORS filter runs), the limiter stores afterwards, and the
ordered list of pipeline stages that ran. -/
structure Outcome where
  response : Response
  corsHeaders : Option CorsResult
  state : AppState
  trace : List Stage
  deriving DecidableEq

/-- Modelled from the spec: Express middleware chaining and JSON body
parsing are library behaviour not under src/; the stages are chained in
the mount order of src/server/index.js — body parsing (a parse failure
escalates straight to the error boundary, carrying its client-input
400), CORS (answering preflights with 204 and no body), the global
limiter, the dispatcher, the AI limiter on AI-gated mounts, the handler
group, with handler failures routed to the error boundary. -/
def processRequest (aiCfg : LimiterConfig)
    (handle : RouteId → Request → Except Err Response)
    (st : AppState) (req : Request) (now : Nat) : Outcome :=
  match req.body with
  | .malformed m =>
      { response := boundaryRespond { message := m, status := some 400 },
        corsHeaders := none, state := st, trace := [.identity] }
  | .wellFormed =>
      let ch := corsApply corsOptions req.origin
      if req.method = "OPTIONS" then
        { response := { status := 204, body := .empty },
          corsHeaders := some ch, state := st, trace := [.identity, .cors] }
      else
        let g := limiterCheck limiter st.globalLim req.clientKey now
        if g.1.allowed then
          match routeRequest req.method req.path with
          | .ai rid =>
              let a := limiterCheck aiCfg st.aiLim req.clientKey now
              if a.1.allowed then
                { response := dispatchHandler handle rid req,
                  corsHeaders := some ch,
                  state := { globalLim := g.2, aiLim := a.2 },
                  trace := [.identity, .cors, .globalLimiter, .router, .aiLimiter, .handler] }
              else
                { response := rejectResponse aiCfg,
                  corsHeaders := some ch,
                  state := { globalLim := g.2, aiLim := a.2 },
                  trace := [.identity, .cors, .globalLimiter, .router, .aiLimiter] }
          | .healthRoot =>
              { response := healthRootResponse, corsHeaders := some ch,
                state := { globalLim := g.2, aiLim := st.aiLim },
                trace := [.identity, .cors, .globalLimiter, .router, .handler] }
          | .healthCheck =>
              { response := healthCheckResponse now, corsHeaders := some ch,
                state := { globalLim := g.2, aiLim := st.aiLim },
                trace := [.identity, .cors, .globalLimiter, .router, .handler] }
          | .notFound =>
              { response := notFoundResponse, corsHeaders := some ch,
                state := { globalLim := g.2, aiLim := st.aiLim },
                trace := [.identity, .cors, .globalLimiter, .router] }
        else
          { response := rejectResponse limiter, corsHeaders := some ch,
            state := { globalLim := g.2, aiLim := st.aiLim },
            trace := [.identity, .cors, .globalLimiter] }

/-- Run a sequence of timed requests through the pipeline, threading the
limiter stores and recording each response with its stage trace. -/
def processSeq (aiCfg : LimiterConfig)
    (handle : RouteId → Request → Except Err Response)
    (st : AppState) : List (Request × Nat) → List (Response × List Stage) × AppState
  | [] => ([], st)
  | (req, t) :: rest =>
      let o := processRequest aiCfg handle st req t
      let (os, sf) := processSeq aiCfg handle o.state rest
      ((o.response, o.trace) :: os, sf)

/-- Is the dispatch target an AI-gated handler group? -/
def RouteTarget.isAi : RouteTarget → Bool
  | .ai _ => true
  | _ => false

/-- A single-key limiter store holding `k` counted requests of a window
that started at time 0 (empty for `k = 0`). -/
def counterList (key : String) : Nat → LimiterState
  | 0 => []
  | Nat.succ k => [(key, { count := k + 1, windowStart := 0 })]

/-- App state after `k` requests from one key on a non-AI path. -/
def mkGState (key : String) (k : Nat) : AppState :=
  { globalLim := counterList key k, aiLim := [] }

/-- App state after `k` requests from one key on an AI-gated path. -/
def mkAiState (key : String) (k : Nat) : AppState :=
  { globalLim := counterList key k, aiLim := counterList key k }

/-- A plain liveness request: GET / with no declared origin. -/
def healthReq : Request :=
  { method := "GET", path := "/", origin := none, clientKey := "203.0.113.5",
    body := .wellFormed }

/-- A request to an AI-gated mount. -/
def pdfReq : Request :=
  { method := "POST", path := "/pdf/chat", origin := some "http://localhost:3000",
    clientKey := "198.51.100.7", body := .wellFormed }

/-- The responses of `n` back-to-back GET / requests from one client
within one window, starting from fresh limiter stores. -/
def repeatHealth (aiCfg : LimiterConfig)
    (handle : RouteId → Request → Except Err Response) (n : Nat) : List Response :=
  ((processSeq aiCfg handle emptyAppState (List.replicate n (healthReq, 0))).1).map Prod.fst

/-- A concrete handler assignment, used to instantiate closed statements. -/
def someHandle : RouteId → Request → Except Err Response :=
  fun _ _ => .ok { status := 200, body := .empty }

/-- A concrete AI-route limiter configuration (the spec treats the
AI-route values as an externally supplied constant, stricter than the
global limiter), used to instantiate closed statements. -/
def someAiCfg : LimiterConfig :=
  { windowDurationMs := 60000, maxRequests := 10,
    message := "AI request limit reached, please slow down",
    standardHeaders := true, legacyHeaders := false }

theorem lookup_insert (s : LimiterState) (key k : String) (c : WindowCounter) :
    lookupKey (insertKey s key c) k = if key = k then some c else lookupKey s k := by
  induction s with
  | nil =>
      by_cases h : key = k <;> simp [insertKey, lookupKey, h]
  | cons hd tl ih =>
      obtain ⟨k0, c0⟩ := hd
      by_cases h0 : k0 = key
      · subst h0
        by_cases h1 : k0 = k <;> simp [insertKey, lookupKey, h1]
      · by_cases h1 : k0 = k
        · subst h1
          have hk : ¬ key = k0 := fun e => h0 e.symm
          simp [insertKey, lookupKey, h0, hk]
        · simp [insertKey, lookupKey, h0, h1, ih]

theorem runSteps_cons (cfg : LimiterConfig) (s : LimiterState) (key : String)
    (t : Nat) (ts : List Nat) :
    runSteps cfg s key (t :: ts) =
      ((limiterStep cfg s key t).1 ::
         (runSteps cfg (limiterStep cfg s key t).2 key ts).1,
       (runSteps cfg (limiterStep cfg s key t).2 key ts).2) := rfl

theorem limiterStep_single (cfg : LimiterConfig) (key : String) (k t₀ t : Nat)
    (ht : t ≤ t₀ + cfg.windowDurationMs) :
    limiterStep cfg [(key, { count := k, windowStart := t₀ })] key t =
      (if k + 1 ≤ cfg.maxRequests then none else some (rejectResponse cfg),
       [(key, { count := k + 1, windowStart := t₀ })]) := by
  have hres : ¬ t₀ + cfg.windowDurationMs < t := Nat.not_lt.mpr ht
  simp [limiterStep, limiterCheck, lookupKey, wcCheck, insertKey, hres]

theorem limiterStep_empty (cfg : LimiterConfig) (key : String) (t : Nat) :
    limiterStep cfg [] key t =
      (if 1 ≤ cfg.maxRequests then none else some (rejectResponse cfg),
       [(key, { count := 1, windowStart := t })]) := by
  simp [limiterStep, limiterCheck, lookupKey, wcCheck, insertKey]

theorem runSteps_from (cfg : LimiterConfig) (key : String) (t₀ : Nat) :
    ∀ (ts : List Nat) (k : Nat), (∀ t ∈ ts, t ≤ t₀ + cfg.windowDurationMs) →
      runSteps cfg [(key, { count := k, windowStart := t₀ })] key ts =
        ((List.range ts.length).map
           (fun i => if k + i + 1 ≤ cfg.maxRequests then none
                     else some (rejectResponse cfg)),
         [(key, { count := k + ts.length, windowStart := t₀ })]) := by
  intro ts
  induction ts with
  | nil => intro k _; simp [runSteps]
  | cons t ts ih =>
      intro k h
      rw [runSteps_cons, limiterStep_single cfg key k t₀ t (h t (by simp))]
      rw [ih (k + 1) (fun u hu => h u (by simp [hu]))]
      refine congrArg₂ Prod.mk ?_ ?_
      · rw [List.length_cons, List.range_succ_eq_map, List.map_cons, List.map_map]
        refine congrArg₂ List.cons rfl ?_
        refine List.map_congr_left ?_
        intro i _
        have e : k + 1 + i + 1 = k + (i + 1) + 1 := by omega
        simp only [Function.comp]
        rw [e]
      · have e : k + 1 + ts.length = k + (ts.length + 1) := by omega
        rw [e, List.length_cons]

/-- C1: for a client key, within a single global limiter window
(windowDurationMs = 900000, maxRequests = 100), each of the first 100
requests is admitted and passed on (`none`), and the 101st request of
the window is rejected by the limiter itself with HTTP 429 and the
configured message; it is the request whose increment makes the count
equal maxRequests + 1, the first rejected request of the window. -/
theorem c1_global_limit (key : String) (t₀ : Nat) (ts : List Nat)
    (hlen : ts.length = 100)
    (hts : ∀ t ∈ ts, t ≤ t₀ + limiter.windowDurationMs) :
    limiter.windowDurationMs = 900000 ∧ limiter.maxRequests = 100 ∧
    (runSteps limiter [] key (t₀ :: ts)).1 =
      (List.range 101).map
        (fun i => if i < 100 then none else some (rejectResponse limiter)) ∧
    lookupKey (runSteps limiter [] key (t₀ :: ts)).2 key =
      some { count := limiter.maxRequests + 1, windowStart := t₀ } := by
  have hrun : runSteps limiter [] key (t₀ :: ts) =
      ((if 1 ≤ limiter.maxRequests then none else some (rejectResponse limiter)) ::
         (List.range ts.length).map
           (fun i => if 1 + i + 1 ≤ limiter.maxRequests then none
                     else some (rejectResponse limiter)),
       [(key, { count := 1 + ts.length, windowStart := t₀ })]) := by
    rw [runSteps_cons, limiterStep_empty, runSteps_from limiter key t₀ ts 1 hts]
  refine ⟨rfl, rfl, ?_, ?_⟩
  · rw [hrun, hlen]
    show (if 1 ≤ limiter.maxRequests then none else some (rejectResponse limiter)) ::
        (List.range 100).map
          (fun i => if 1 + i + 1 ≤ limiter.maxRequests then none
                    else some (rejectResponse limiter)) =
      (List.range 101).map
        (fun i => if i < 100 then none else some (rejectResponse limiter))
    decide
  · rw [hrun, hlen]
    simp [lookupKey, limiter]

theorem c1_witness :
    (List.replicate 100 0).length = 100 ∧
    (∀ t ∈ List.replicate 100 0, t ≤ 0 + limiter.windowDurationMs) ∧
    ((runSteps limiter [] "203.0.113.5" (0 :: List.replicate 100 0)).1 =
       (List.range 101).map
         (fun i => if i < 100 then none else some (rejectResponse limiter)) ∧
     lookupKey (runSteps limiter [] "203.0.113.5" (0 :: List.replicate 100 0)).2
         "203.0.113.5" =
       some { count := limiter.maxRequests + 1, windowStart := 0 }) :=
  ⟨by decide, by decide,
   (c1_global_limit "203.0.113.5" 0 (List.replicate 100 0) (by decide) (by decide)).2.2⟩

/-- C3: once the window duration has elapsed since the start of a key's
current window, a check resets the counter and advances the window
start, so the next request — whatever the old count, even 100 — is
counted as the 1st request of a new window starting now and is
admitted. -/
theorem c3_window_reset (s : LimiterState) (key : String) (c : WindowCounter) (now : Nat)
    (hc : lookupKey s key = some c)
    (h : c.windowStart + limiter.windowDurationMs < now) :
    limiterCheck limiter s key now =
      ({ allowed := true, remaining := limiter.maxRequests - 1,
         resetAt := now + limiter.windowDurationMs },
       insertKey s key { count := 1, windowStart := now }) := by
  simp [limiterCheck, hc, wcCheck, h]
  decide

theorem c3_witness :
    lookupKey [("203.0.113.5", WindowCounter.mk 100 0)] "203.0.113.5" =
      some (WindowCounter.mk 100 0) ∧
    (WindowCounter.mk 100 0).windowStart + limiter.windowDurationMs < 900001 ∧
    limiterCheck limiter [("203.0.113.5", WindowCounter.mk 100 0)] "203.0.113.5" 900001 =
      (CheckResult.mk true (limiter.maxRequests - 1) (900001 + limiter.windowDurationMs),
       insertKey [("203.0.113.5", WindowCounter.mk 100 0)] "203.0.113.5"
         (WindowCounter.mk 1 900001)) :=
  ⟨by decide, by decide,
   c3_window_reset [("203.0.113.5", WindowCounter.mk 100 0)] "203.0.113.5"
     (WindowCounter.mk 100 0) 900001 (by decide) (by decide)⟩

/-- C2: for every error object, the error boundary emits exactly one
response — status 500 with the JSON envelope carrying the fixed error
string and the error's message — when headers are not yet sent, and
writes nothing, delegating to the platform default, when they are. -/
theorem c2_error_boundary (e : Err) :
    errorBoundary e false =
      .respond { status := 500,
                 body := .json [("error", "Something went wrong!"),
                                ("details", e.message)] } ∧
    errorBoundary e true = .delegate e :=
  ⟨rfl, rfl⟩

theorem limiterCheck_lookup_other (cfg : LimiterConfig) (s : LimiterState)
    (key : String) (now : Nat) (k : String) (h : k ≠ key) :
    lookupKey (limiterCheck cfg s key now).2 k = lookupKey s k := by
  have hk : ¬ key = k := fun e => h e.symm
  simp [limiterCheck, lookup_insert, hk]

theorem limiterCheck_fst (cfg : LimiterConfig) (s : LimiterState)
    (key : String) (now : Nat) :
    (limiterCheck cfg s key now).1 = (wcCheck cfg (lookupKey s key) now).1 := rfl

theorem limiterCheck_snd (cfg : LimiterConfig) (s : LimiterState)
    (key : String) (now : Nat) :
    (limiterCheck cfg s key now).2 =
      insertKey s key (wcCheck cfg (lookupKey s key) now).2 := rfl

theorem runLimiter_cons (cfg : LimiterConfig) (s : LimiterState)
    (k : String) (t : Nat) (rest : List (String × Nat)) :
    runLimiter cfg s ((k, t) :: rest) =
      ((k, (limiterCheck cfg s k t).1) ::
         (runLimiter cfg (limiterCheck cfg s k t).2 rest).1,
       (runLimiter cfg (limiterCheck cfg s k t).2 rest).2) := rfl

theorem runLimiter_project (cfg : LimiterConfig) (b : String) :
    ∀ (reqs : List (String × Nat)) (s s' : LimiterState),
      lookupKey s b = lookupKey s' b →
      ((runLimiter cfg s reqs).1.filter (fun p => p.1 == b) =
         (runLimiter cfg s' (reqs.filter (fun p => p.1 == b))).1 ∧
       lookupKey (runLimiter cfg s reqs).2 b =
         lookupKey (runLimiter cfg s' (reqs.filter (fun p => p.1 == b))).2 b) := by
  intro reqs
  induction reqs with
  | nil =>
      intro s s' h
      exact ⟨by simp [runLimiter], by simpa [runLimiter] using h⟩
  | cons p rest ih =>
      obtain ⟨k, t⟩ := p
      intro s s' h
      by_cases hk : k = b
      · subst hk
        have hw : wcCheck cfg (lookupKey s k) t = wcCheck cfg (lookupKey s' k) t := by
          rw [h]
        have hkeep : ((k, t) :: rest).filter (fun p => p.1 == k) =
            (k, t) :: rest.filter (fun p => p.1 == k) := by
          simp [List.filter_cons]
        rw [hkeep, runLimiter_cons, runLimiter_cons]
        dsimp only
        simp only [limiterCheck_fst, limiterCheck_snd, hw]
        obtain ⟨ih1, ih2⟩ :=
          ih (insertKey s k (wcCheck cfg (lookupKey s' k) t).2)
             (insertKey s' k (wcCheck cfg (lookupKey s' k) t).2)
             (by rw [lookup_insert, lookup_insert]; simp)
        refine ⟨?_, ih2⟩
        simp only [List.filter_cons]
        simp [ih1]
      · have hdrop : ((k, t) :: rest).filter (fun p => p.1 == b) =
            rest.filter (fun p => p.1 == b) := by
          simp [List.filter_cons, hk]
        have hother : lookupKey (limiterCheck cfg s k t).2 b = lookupKey s b :=
          limiterCheck_lookup_other cfg s k t b (fun e => hk e.symm)
        rw [hdrop, runLimiter_cons]
        dsimp only
        obtain ⟨ih1, ih2⟩ := ih (limiterCheck cfg s k t).2 s' (by rw [hother, h])
        refine ⟨?_, ih2⟩
        simp only [List.filter_cons]
        simp [hk, ih1]

/-- C8: a key's window counter and check results are a function of that
key's own request history alone: one request from another key leaves
its stored counter untouched, and over any interleaved request
sequence the results and final counter for a key equal those of
running only that key's requests. -/
theorem c8_key_isolation (cfg : LimiterConfig) (s : LimiterState)
    (reqs : List (String × Nat)) (b key : String) (now : Nat) (h : b ≠ key) :
    lookupKey (limiterCheck cfg s key now).2 b = lookupKey s b ∧
    (runLimiter cfg s reqs).1.filter (fun p => p.1 == b) =
      (runLimiter cfg s (reqs.filter (fun p => p.1 == b))).1 ∧
    lookupKey (runLimiter cfg s reqs).2 b =
      lookupKey (runLimiter cfg s (reqs.filter (fun p => p.1 == b))).2 b :=
  ⟨limiterCheck_lookup_other cfg s key now b h,
   (runLimiter_project cfg b reqs s s rfl).1,
   (runLimiter_project cfg b reqs s s rfl).2⟩

theorem c8_witness :
    ("198.51.100.7" : String) ≠ "203.0.113.5" ∧
    (lookupKey (limiterCheck limiter [] "203.0.113.5" 5).2 "198.51.100.7" =
       lookupKey [] "198.51.100.7" ∧
     (runLimiter limiter []
        [("203.0.113.5", 0), ("198.51.100.7", 1), ("203.0.113.5", 2)]).1.filter
          (fun p => p.1 == "198.51.100.7") =
       (runLimiter limiter []
          ([("203.0.113.5", 0), ("198.51.100.7", 1), ("203.0.113.5", 2)].filter
            (fun p => p.1 == "198.51.100.7"))).1 ∧
     lookupKey (runLimiter limiter []
         [("203.0.113.5", 0), ("198.51.100.7", 1), ("203.0.113.5", 2)]).2
         "198.51.100.7" =
       lookupKey (runLimiter limiter []
           ([("203.0.113.5", 0), ("198.51.100.7", 1), ("203.0.113.5", 2)].filter
             (fun p => p.1 == "198.51.100.7"))).2 "198.51.100.7") :=
  ⟨by decide,
   c8_key_isolation limiter []
     [("203.0.113.5", 0), ("198.51.100.7", 1), ("203.0.113.5", 2)]
     "198.51.100.7" "203.0.113.5" 5 (by decide)⟩

/-- C10: every error reaching the boundary with headers unsent is
reported as HTTP 500 with the error/details envelope, regardless of the
status the error itself carries; in particular a malformed JSON body,
whose parse failure carries a client-input 400, still produces a 500
response, not a 4xx one. -/
theorem c10_parse_failure_is_500 (aiCfg : LimiterConfig)
    (handle : RouteId → Request → Except Err Response)
    (st : AppState) (req : Request) (now : Nat) (m : String)
    (hb : req.body = .malformed m) :
    (∀ e : Err, errorBoundary e false = .respond (boundaryRespond e) ∧
       (boundaryRespond e).status = 500) ∧
    (processRequest aiCfg handle st req now).response =
      { status := 500,
        body := .json [("error", "Something went wrong!"), ("details", m)] } ∧
    ¬ (400 ≤ (processRequest aiCfg handle st req now).response.status ∧
       (processRequest aiCfg handle st req now).response.status < 500) := by
  refine ⟨fun e => ⟨rfl, rfl⟩, ?_, ?_⟩
  · simp [processRequest, hb, boundaryRespond]
  · simp [processRequest, hb, boundaryRespond]

theorem c10_witness :
    (Request.mk "POST" "/generate-plan" none "203.0.113.5"
        (.malformed "Unexpected token")).body = .malformed "Unexpected token" ∧
    ((∀ e : Err, errorBoundary e false = .respond (boundaryRespond e) ∧
        (boundaryRespond e).status = 500) ∧
     (processRequest someAiCfg someHandle emptyAppState
         (Request.mk "POST" "/generate-plan" none "203.0.113.5"
           (.malformed "Unexpected token")) 0).response =
       { status := 500,
         body := .json [("error", "Something went wrong!"),
                        ("details", "Unexpected token")] } ∧
     ¬ (400 ≤ (processRequest someAiCfg someHandle emptyAppState
           (Request.mk "POST" "/generate-plan" none "203.0.113.5"
             (.malformed "Unexpected token")) 0).response.status ∧
        (processRequest someAiCfg someHandle emptyAppState
           (Request.mk "POST" "/generate-plan" none "203.0.113.5"
             (.malformed "Unexpected token")) 0).response.status < 500)) :=
  ⟨rfl,
   c10_parse_failure_is_500 someAiCfg someHandle emptyAppState
     (Request.mk "POST" "/generate-plan" none "203.0.113.5"
       (.malformed "Unexpected token")) 0 "Unexpected token" rfl⟩

/-- C5: the CORS filter echoes an origin back with credentials allowed
exactly when it matches one of the five fixed allow-listed origins
under case-sensitive string equality, omits the allowed-origin header
for any other origin, fixes the allowed methods to GET, POST, PUT,
PATCH, DELETE and the allowed request headers to Content-Type and
Authorization, and never rejects the request server-side: a
non-preflight request reaches the global limiter stage whatever its
origin. -/
theorem c5_cors_filter (o : String) (aiCfg : LimiterConfig)
    (handle : RouteId → Request → Except Err Response)
    (st : AppState) (req : Request) (now : Nat)
    (hb : req.body = .wellFormed) (hm : req.method ≠ "OPTIONS") :
    corsOptions.origin =
      ["https://mind-mentor-pearl.vercel.app",
       "https://mind-mentor.kartiklabhshetwar.me",
       "http://localhost:3000",
       "https://www.mind-mentor.ink",
       "https://mind-mentor.ink"] ∧
    (corsApply corsOptions (some o)).allowOrigin =
      (if o ∈ corsOptions.origin then some o else none) ∧
    (corsApply corsOptions (some o)).allowCredentials =
      (if o ∈ corsOptions.origin then true else false) ∧
    (corsApply corsOptions (some o)).allowMethods =
      ["GET", "POST", "PUT", "PATCH", "DELETE"] ∧
    (corsApply corsOptions (some o)).allowHeaders = ["Content-Type", "Authorization"] ∧
    (corsApply corsOptions none).allowOrigin = none ∧
    Stage.globalLimiter ∈ (processRequest aiCfg handle st req now).trace := by
  refine ⟨rfl, ?_, ?_, ?_, ?_, rfl, ?_⟩
  · by_cases h : o ∈ corsOptions.origin <;> simp [corsApply, h]
  · by_cases h : o ∈ corsOptions.origin <;> (simp [corsApply, h]; try rfl)
  · by_cases h : o ∈ corsOptions.origin <;> (simp [corsApply, h]; try rfl)
  · by_cases h : o ∈ corsOptions.origin <;> (simp [corsApply, h]; try rfl)
  · simp only [processRequest, hb]
    split
    · exact absurd (by assumption) hm
    · split
      · split
        · split
          · dsimp only
            decide
          · dsimp only
            decide
        · dsimp only
          decide
        · dsimp only
          decide
        · dsimp only
          decide
      · dsimp only
        decide

theorem c5_witness :
    healthReq.body = JsonBody.wellFormed ∧
    healthReq.method ≠ "OPTIONS" ∧
    (corsOptions.origin =
       ["https://mind-mentor-pearl.vercel.app",
        "https://mind-mentor.kartiklabhshetwar.me",
        "http://localhost:3000",
        "https://www.mind-mentor.ink",
        "https://mind-mentor.ink"] ∧
     (corsApply corsOptions (some "http://localhost:3000")).allowOrigin =
       (if "http://localhost:3000" ∈ corsOptions.origin
        then some "http://localhost:3000" else none) ∧
     (corsApply corsOptions (some "http://localhost:3000")).allowCredentials =
       (if "http://localhost:3000" ∈ corsOptions.origin then true else false) ∧
     (corsApply corsOptions (some "http://localhost:3000")).allowMethods =
       ["GET", "POST", "PUT", "PATCH", "DELETE"] ∧
     (corsApply corsOptions (some "http://localhost:3000")).allowHeaders =
       ["Content-Type", "Authorization"] ∧
     (corsApply corsOptions none).allowOrigin = none ∧
     Stage.globalLimiter ∈
       (processRequest someAiCfg someHandle emptyAppState healthReq 0).trace) :=
  ⟨rfl, by decide,
   c5_cors_filter "http://localhost:3000" someAiCfg someHandle emptyAppState
     healthReq 0 rfl (by decide)⟩

/-- C6: every request's stage trace is an ordered sub-run of
Identity, CORS, Global Limiter, Router, AI Limiter, Handler, and a
preflight OPTIONS request is answered by the CORS filter with a
success status and no body, leaving both limiter stores untouched and
never reaching the global limiter, the router or the AI limiter. -/
theorem c6_stage_order (aiCfg : LimiterConfig)
    (handle : RouteId → Request → Except Err Response)
    (st : AppState) (req : Request) (now : Nat) :
    (processRequest aiCfg handle st req now).trace.Sublist stageOrder ∧
    (req.method = "OPTIONS" → req.body = .wellFormed →
      (processRequest aiCfg handle st req now).response =
        { status := 204, body := Body.empty } ∧
      (processRequest aiCfg handle st req now).state = st ∧
      (processRequest aiCfg handle st req now).trace = [Stage.identity, Stage.cors]) := by
  constructor
  · cases hb : req.body with
    | malformed m =>
        simp only [processRequest, hb]
        decide
    | wellFormed =>
        simp only [processRequest, hb]
        split
        · dsimp only
          decide
        · split
          · split
            · split
              · dsimp only
                decide
              · dsimp only
                decide
            · dsimp only
              decide
            · dsimp only
              decide
            · dsimp only
              decide
          · dsimp only
            decide
  · intro hm hbw
    have hred : processRequest aiCfg handle st req now =
        { response := { status := 204, body := Body.empty },
          corsHeaders := some (corsApply corsOptions req.origin),
          state := st, trace := [Stage.identity, Stage.cors] } := by
      simp [processRequest, hbw, hm]
    exact ⟨by rw [hred], by rw [hred], by rw [hred]⟩

theorem c6_witness :
    (Request.mk "OPTIONS" "/generate-plan" (some "http://localhost:3000")
        "203.0.113.5" .wellFormed).method = "OPTIONS" ∧
    (Request.mk "OPTIONS" "/generate-plan" (some "http://localhost:3000")
        "203.0.113.5" .wellFormed).body = JsonBody.wellFormed ∧
    (processRequest someAiCfg someHandle emptyAppState
        (Request.mk "OPTIONS" "/generate-plan" (some "http://localhost:3000")
          "203.0.113.5" .wellFormed) 0).trace.Sublist stageOrder ∧
    ((processRequest someAiCfg someHandle emptyAppState
        (Request.mk "OPTIONS" "/generate-plan" (some "http://localhost:3000")
          "203.0.113.5" .wellFormed) 0).response =
      { status := 204, body := Body.empty } ∧
     (processRequest someAiCfg someHandle emptyAppState
        (Request.mk "OPTIONS" "/generate-plan" (some "http://localhost:3000")
          "203.0.113.5" .wellFormed) 0).state = emptyAppState ∧
     (processRequest someAiCfg someHandle emptyAppState
        (Request.mk "OPTIONS" "/generate-plan" (some "http://localhost:3000")
          "203.0.113.5" .wellFormed) 0).trace = [Stage.identity, Stage.cors]) :=
  ⟨rfl, rfl,
   (c6_stage_order someAiCfg someHandle emptyAppState
      (Request.mk "OPTIONS" "/generate-plan" (some "http://localhost:3000")
        "203.0.113.5" .wellFormed) 0).1,
   (c6_stage_order someAiCfg someHandle emptyAppState
      (Request.mk "OPTIONS" "/generate-plan" (some "http://localhost:3000")
        "203.0.113.5" .wellFormed) 0).2 rfl rfl⟩

theorem charsMatch_two (c₀ c₁ : Char) (a : List Char) :
    ∀ p : List Char, charsMatch (c₀ :: c₁ :: a) p = true →
      ∃ rest, p = c₀ :: c₁ :: rest := by
  intro p h
  cases p with
  | nil => simp [charsMatch] at h
  | cons d ds =>
      cases ds with
      | nil => simp [charsMatch] at h
      | cons e es =>
          simp only [charsMatch, Bool.and_eq_true, decide_eq_true_eq] at h
          obtain ⟨h1, h2, _⟩ := h
          exact ⟨es, by rw [h1, h2]⟩

theorem gp_cr_disjoint (path : String) :
    (mountMatch "/generate-plan" path && mountMatch "/curate-resources" path) = false := by
  by_cases hA : mountMatch "/generate-plan" path = true
  · by_cases hB : mountMatch "/curate-resources" path = true
    · exfalso
      obtain ⟨r1, e1⟩ := charsMatch_two '/' 'g' _ path.data hA
      obtain ⟨r2, e2⟩ := charsMatch_two '/' 'c' _ path.data hB
      rw [e1] at e2
      injection e2 with _ e3
      injection e3 with e4 _
      exact absurd e4 (by decide)
    · simp [Bool.eq_false_iff.mpr hB]
  · simp [Bool.eq_false_iff.mpr hA]

theorem gp_pdf_disjoint (path : String) :
    (mountMatch "/generate-plan" path && mountMatch "/pdf" path) = false := by
  by_cases hA : mountMatch "/generate-plan" path = true
  · by_cases hB : mountMatch "/pdf" path = true
    · exfalso
      obtain ⟨r1, e1⟩ := charsMatch_two '/' 'g' _ path.data hA
      obtain ⟨r2, e2⟩ := charsMatch_two '/' 'p' _ path.data hB
      rw [e1] at e2
      injection e2 with _ e3
      injection e3 with e4 _
      exact absurd e4 (by decide)
    · simp [Bool.eq_false_iff.mpr hB]
  · simp [Bool.eq_false_iff.mpr hA]

theorem cr_pdf_disjoint (path : String) :
    (mountMatch "/curate-resources" path && mountMatch "/pdf" path) = false := by
  by_cases hA : mountMatch "/curate-resources" path = true
  · by_cases hB : mountMatch "/pdf" path = true
    · exfalso
      obtain ⟨r1, e1⟩ := charsMatch_two '/' 'c' _ path.data hA
      obtain ⟨r2, e2⟩ := charsMatch_two '/' 'p' _ path.data hB
      rw [e1] at e2
      injection e2 with _ e3
      injection e3 with e4 _
      exact absurd e4 (by decide)
    · simp [Bool.eq_false_iff.mpr hB]
  · simp [Bool.eq_false_iff.mpr hA]

/-- C7: the three registered mounts are pairwise non-overlapping, so the
matching mount is the unique (hence longest) one; a first admitted
request is dispatched by path: a mount match goes 1:1 to its handler
group (behind the AI limiter, whose stage runs on every AI-gated
dispatch), unmatched paths hit the health handlers only on an exact
GET / or GET /health, and every other request gets status 404. -/
theorem c7_router_dispatch (aiCfg : LimiterConfig)
    (handle : RouteId → Request → Except Err Response)
    (req : Request) (now : Nat)
    (hb : req.body = .wellFormed) (hm : req.method ≠ "OPTIONS")
    (hai : 1 ≤ aiCfg.maxRequests) :
    ((mountMatch "/generate-plan" req.path && mountMatch "/curate-resources" req.path)
        = false ∧
     (mountMatch "/generate-plan" req.path && mountMatch "/pdf" req.path) = false ∧
     (mountMatch "/curate-resources" req.path && mountMatch "/pdf" req.path) = false) ∧
    (processRequest aiCfg handle emptyAppState req now).response =
      (if mountMatch "/generate-plan" req.path then
         dispatchHandler handle .generatePlan req
       else if mountMatch "/curate-resources" req.path then
         dispatchHandler handle .curateResources req
       else if mountMatch "/pdf" req.path then
         dispatchHandler handle .pdfChat req
       else if req.method = "GET" && req.path = "/" then healthRootResponse
       else if req.method = "GET" && req.path = "/health" then healthCheckResponse now
       else notFoundResponse) ∧
    ((routeRequest req.method req.path).isAi = true →
      Stage.aiLimiter ∈ (processRequest aiCfg handle emptyAppState req now).trace) := by
  have hga : (limiterCheck limiter emptyAppState.globalLim req.clientKey now).1.allowed
      = true := rfl
  have haa : (limiterCheck aiCfg emptyAppState.aiLim req.clientKey now).1.allowed
      = true := by
    simp [limiterCheck, lookupKey, wcCheck, emptyAppState, hai]
  refine ⟨⟨gp_cr_disjoint req.path, gp_pdf_disjoint req.path, cr_pdf_disjoint req.path⟩,
         ?_, ?_⟩
  · simp only [processRequest, hb]
    rw [if_neg hm, hga]
    simp only [if_true]
    by_cases h1 : mountMatch "/generate-plan" req.path = true
    · simp [routeRequest, h1, haa]
    · simp only [routeRequest, h1, Bool.false_eq_true, if_false,
        Bool.eq_false_iff.mpr h1]
      by_cases h2 : mountMatch "/curate-resources" req.path = true
      · simp [h2, haa]
      · simp only [h2, Bool.false_eq_true, if_false, Bool.eq_false_iff.mpr h2]
        by_cases h3 : mountMatch "/pdf" req.path = true
        · simp [h3, haa]
        · simp only [h3, Bool.false_eq_true, if_false, Bool.eq_false_iff.mpr h3]
          by_cases h4 : (req.method = "GET" && req.path = "/") = true
          · simp [h4]
          · simp only [h4, Bool.false_eq_true, if_false, Bool.eq_false_iff.mpr h4]
            by_cases h5 : (req.method = "GET" && req.path = "/health") = true
            · simp [h5]
            · simp only [h5, Bool.false_eq_true, if_false, Bool.eq_false_iff.mpr h5]
  · intro hia
    cases hr : routeRequest req.method req.path with
    | ai rid =>
        simp only [processRequest, hb]
        rw [if_neg hm, hga]
        simp only [if_true, hr, haa]
        decide
    | healthRoot => rw [hr] at hia; exact absurd hia (by decide)
    | healthCheck => rw [hr] at hia; exact absurd hia (by decide)
    | notFound => rw [hr] at hia; exact absurd hia (by decide)

theorem c7_witness :
    pdfReq.body = JsonBody.wellFormed ∧
    pdfReq.method ≠ "OPTIONS" ∧
    1 ≤ someAiCfg.maxRequests ∧
    (((mountMatch "/generate-plan" pdfReq.path &&
         mountMatch "/curate-resources" pdfReq.path) = false ∧
      (mountMatch "/generate-plan" pdfReq.path && mountMatch "/pdf" pdfReq.path)
         = false ∧
      (mountMatch "/curate-resources" pdfReq.path && mountMatch "/pdf" pdfReq.path)
         = false) ∧
     (processRequest someAiCfg someHandle emptyAppState pdfReq 0).response =
       (if mountMatch "/generate-plan" pdfReq.path then
          dispatchHandler someHandle .generatePlan pdfReq
        else if mountMatch "/curate-resources" pdfReq.path then
          dispatchHandler someHandle .curateResources pdfReq
        else if mountMatch "/pdf" pdfReq.path then
          dispatchHandler someHandle .pdfChat pdfReq
        else if pdfReq.method = "GET" && pdfReq.path = "/" then healthRootResponse
        else if pdfReq.method = "GET" && pdfReq.path = "/health" then
          healthCheckResponse 0
        else notFoundResponse) ∧
     ((routeRequest pdfReq.method pdfReq.path).isAi = true →
       Stage.aiLimiter ∈
         (processRequest someAiCfg someHandle emptyAppState pdfReq 0).trace)) :=
  ⟨rfl, by decide, by decide,
   c7_router_dispatch someAiCfg someHandle pdfReq 0 rfl (by decide) (by decide)⟩

theorem processSeq_cons (aiCfg : LimiterConfig)
    (handle : RouteId → Request → Except Err Response)
    (st : AppState) (req : Request) (t : Nat) (rest : List (Request × Nat)) :
    processSeq aiCfg handle st ((req, t) :: rest) =
      (((processRequest aiCfg handle st req t).response,
        (processRequest aiCfg handle st req t).trace) ::
         (processSeq aiCfg handle (processRequest aiCfg handle st req t).state rest).1,
       (processSeq aiCfg handle (processRequest aiCfg handle st req t).state rest).2) := rfl

theorem limiterCheck_counterList (cfg : LimiterConfig) (key : String) (k : Nat) :
    limiterCheck cfg (counterList key k) key 0 =
      ({ allowed := decide (k + 1 ≤ cfg.maxRequests),
         remaining := cfg.maxRequests - (k + 1),
         resetAt := cfg.windowDurationMs },
       counterList key (k + 1)) := by
  cases k with
  | zero => simp [limiterCheck, counterList, lookupKey, wcCheck, insertKey]
  | succ k0 => simp [limiterCheck, counterList, lookupKey, wcCheck, insertKey]

theorem processRequest_healthReq (aiCfg : LimiterConfig)
    (handle : RouteId → Request → Except Err Response) (s a : LimiterState) :
    processRequest aiCfg handle { globalLim := s, aiLim := a } healthReq 0 =
      (if (limiterCheck limiter s healthReq.clientKey 0).1.allowed then
        { response := healthRootResponse,
          corsHeaders := some (corsApply corsOptions none),
          state := { globalLim := (limiterCheck limiter s healthReq.clientKey 0).2,
                     aiLim := a },
          trace := [.identity, .cors, .globalLimiter, .router, .handler] }
      else
        { response := rejectResponse limiter,
          corsHeaders := some (corsApply corsOptions none),
          state := { globalLim := (limiterCheck limiter s healthReq.clientKey 0).2,
                     aiLim := a },
          trace := [.identity, .cors, .globalLimiter] }) := rfl

theorem processRequest_health_step (aiCfg : LimiterConfig)
    (handle : RouteId → Request → Except Err Response) (k : Nat)
    (hk : k + 1 ≤ 100) :
    processRequest aiCfg handle (mkGState healthReq.clientKey k) healthReq 0 =
      { response := healthRootResponse,
        corsHeaders := some (corsApply corsOptions none),
        state := mkGState healthReq.clientKey (k + 1),
        trace := [.identity, .cors, .globalLimiter, .router, .handler] } := by
  have h1 : mkGState healthReq.clientKey k =
      { globalLim := counterList healthReq.clientKey k, aiLim := [] } := rfl
  rw [h1, processRequest_healthReq, limiterCheck_counterList]
  dsimp only
  rw [decide_eq_true (show k + 1 ≤ limiter.maxRequests from hk), if_pos rfl]
  rfl

theorem processSeq_health_run (aiCfg : LimiterConfig)
    (handle : RouteId → Request → Except Err Response) :
    ∀ (n k : Nat), k + n ≤ 100 →
      (processSeq aiCfg handle (mkGState healthReq.clientKey k)
        (List.replicate n (healthReq, 0))).1 =
      List.replicate n (healthRootResponse,
        [Stage.identity, Stage.cors, Stage.globalLimiter, Stage.router,
         Stage.handler]) := by
  intro n
  induction n with
  | zero => intro k _; simp [processSeq]
  | succ n ih =>
      intro k h
      rw [List.replicate_succ, processSeq_cons,
          processRequest_health_step aiCfg handle k (by omega)]
      dsimp only
      rw [ih (k + 1) (by omega), List.replicate_succ]

/-- C9 counterexample: repeating GET / does not always return the 200
status payload — starting from fresh limiter stores, the 101st
back-to-back repetition inside one window is answered by the global
limiter, not the health handler. -/
theorem c9_counterexample :
    ¬ (∀ r ∈ repeatHealth someAiCfg someHandle 101, r = healthRootResponse) := by
  decide

/-- C9 (amended): repeating GET / returns the identical fixed status
payload with status 200 on every repetition as long as the repetitions
stay within the global limiter's admission — up to 100 back-to-back
requests inside one window; from the 101st the limiter answers 429
instead. -/
theorem c9_health_idempotent (aiCfg : LimiterConfig)
    (handle : RouteId → Request → Except Err Response)
    (n : Nat) (hn : n ≤ 100) :
    repeatHealth aiCfg handle n = List.replicate n healthRootResponse := by
  have h0 : emptyAppState = mkGState healthReq.clientKey 0 := rfl
  unfold repeatHealth
  rw [h0, processSeq_health_run aiCfg handle n 0 (by omega), List.map_replicate]

theorem c9_witness :
    (3 : Nat) ≤ 100 ∧
    repeatHealth someAiCfg someHandle 3 = List.replicate 3 healthRootResponse :=
  ⟨by decide, c9_health_idempotent someAiCfg someHandle 3 (by decide)⟩

theorem processRequest_pdfReq (aiCfg : LimiterConfig)
    (handle : RouteId → Request → Except Err Response) (s a : LimiterState) :
    processRequest aiCfg handle { globalLim := s, aiLim := a } pdfReq 0 =
      (if (limiterCheck limiter s pdfReq.clientKey 0).1.allowed then
        (if (limiterCheck aiCfg a pdfReq.clientKey 0).1.allowed then
          { response := dispatchHandler handle .pdfChat pdfReq,
            corsHeaders := some (corsApply corsOptions pdfReq.origin),
            state := { globalLim := (limiterCheck limiter s pdfReq.clientKey 0).2,
                       aiLim := (limiterCheck aiCfg a pdfReq.clientKey 0).2 },
            trace := stageOrder }
        else
          { response := rejectResponse aiCfg,
            corsHeaders := some (corsApply corsOptions pdfReq.origin),
            state := { globalLim := (limiterCheck limiter s pdfReq.clientKey 0).2,
                       aiLim := (limiterCheck aiCfg a pdfReq.clientKey 0).2 },
            trace := [.identity, .cors, .globalLimiter, .router, .aiLimiter] })
      else
        { response := rejectResponse limiter,
          corsHeaders := some (corsApply corsOptions pdfReq.origin),
          state := { globalLim := (limiterCheck limiter s pdfReq.clientKey 0).2,
                     aiLim := a },
          trace := [.identity, .cors, .globalLimiter] }) := rfl

theorem processRequest_pdf_step (aiCfg : LimiterConfig)
    (handle : RouteId → Request → Except Err Response) (k : Nat)
    (hk : k + 1 ≤ 100) :
    processRequest aiCfg handle (mkAiState pdfReq.clientKey k) pdfReq 0 =
      { response := if k + 1 ≤ aiCfg.maxRequests then
                      dispatchHandler handle .pdfChat pdfReq
                    else rejectResponse aiCfg,
        corsHeaders := some (corsApply corsOptions pdfReq.origin),
        state := mkAiState pdfReq.clientKey (k + 1),
        trace := if k + 1 ≤ aiCfg.maxRequests then stageOrder
                 else [.identity, .cors, .globalLimiter, .router, .aiLimiter] } := by
  have h1 : mkAiState pdfReq.clientKey k =
      { globalLim := counterList pdfReq.clientKey k,
        aiLim := counterList pdfReq.clientKey k } := rfl
  rw [h1, processRequest_pdfReq, limiterCheck_counterList, limiterCheck_counterList]
  dsimp only
  rw [decide_eq_true (show k + 1 ≤ limiter.maxRequests from hk), if_pos rfl]
  by_cases ha : k + 1 ≤ aiCfg.maxRequests
  · rw [decide_eq_true ha, if_pos rfl, if_pos ha, if_pos ha]
    rfl
  · rw [decide_eq_false ha, if_neg (by decide : ¬ false = true), if_neg ha, if_neg ha]
    rfl

theorem processSeq_pdf_run (aiCfg : LimiterConfig)
    (handle : RouteId → Request → Except Err Response) :
    ∀ (n k : Nat), k + n ≤ 100 →
      (processSeq aiCfg handle (mkAiState pdfReq.clientKey k)
        (List.replicate n (pdfReq, 0))).1 =
      (List.range n).map (fun i =>
        if k + i + 1 ≤ aiCfg.maxRequests then
          (dispatchHandler handle .pdfChat pdfReq, stageOrder)
        else
          (rejectResponse aiCfg,
           [Stage.identity, Stage.cors, Stage.globalLimiter, Stage.router,
            Stage.aiLimiter])) := by
  intro n
  induction n with
  | zero => intro k _; simp [processSeq]
  | succ n ih =>
      intro k h
      rw [List.replicate_succ, processSeq_cons,
          processRequest_pdf_step aiCfg handle k (by omega)]
      dsimp only
      rw [ih (k + 1) (by omega), List.range_succ_eq_map, List.map_cons, List.map_map]
      refine congrArg₂ List.cons ?_ ?_
      · by_cases ha : k + 1 ≤ aiCfg.maxRequests <;> simp [ha]
      · refine List.map_congr_left ?_
        intro i _
        simp only [Function.comp]
        have e : k + 1 + i + 1 = k + (i + 1) + 1 := by omega
        rw [e]

/-- C4: the AI-route limiter's store is independent of the global
limiter's — the global store update is a function of the global store
alone, and the AI store is untouched on non-AI paths — and for any
AI-route ceiling strictly below the global one over the same or a
shorter window there is a one-client request sequence every member of
which the global limiter admits (each trace reaches the router) while
the AI-route limiter rejects its maxRequests + 1st member with its own
429 response. -/
theorem c4_two_tier (aiCfg : LimiterConfig)
    (handle : RouteId → Request → Except Err Response)
    (hmax : aiCfg.maxRequests < limiter.maxRequests)
    (_hwin : aiCfg.windowDurationMs ≤ limiter.windowDurationMs) :
    (∀ (st : AppState) (req : Request) (now : Nat),
       (processRequest aiCfg handle st req now).state.globalLim =
         (match req.body with
          | .malformed _ => st.globalLim
          | .wellFormed =>
              if req.method = "OPTIONS" then st.globalLim
              else (limiterCheck limiter st.globalLim req.clientKey now).2)) ∧
    (∀ (st : AppState) (req : Request) (now : Nat),
       (routeRequest req.method req.path).isAi = false →
       (processRequest aiCfg handle st req now).state.aiLim = st.aiLim) ∧
    (∃ reqs : List (Request × Nat), reqs ≠ [] ∧
       (∀ p ∈ (processSeq aiCfg handle emptyAppState reqs).1, Stage.router ∈ p.2) ∧
       (processSeq aiCfg handle emptyAppState reqs).1[aiCfg.maxRequests]? =
         some (rejectResponse aiCfg,
           [Stage.identity, Stage.cors, Stage.globalLimiter, Stage.router,
            Stage.aiLimiter])) := by
  have hm100 : aiCfg.maxRequests < 100 := hmax
  refine ⟨?_, ?_, ?_⟩
  · intro st req now
    cases hbody : req.body with
    | wellFormed =>
        by_cases hops : req.method = "OPTIONS"
        · simp [processRequest, hbody, hops]
        · simp only [processRequest, hbody, if_neg hops]
          by_cases hg :
            (limiterCheck limiter st.globalLim req.clientKey now).1.allowed = true
          · cases hroute : routeRequest req.method req.path with
            | ai rid =>
                simp only [hg, if_true, hroute]
                split <;> rfl
            | healthRoot => simp [hg, hroute]
            | healthCheck => simp [hg, hroute]
            | notFound => simp [hg, hroute]
          · simp [hg]
    | malformed m => simp [processRequest, hbody]
  · intro st req now hroute0
    cases hbody : req.body with
    | wellFormed =>
        by_cases hops : req.method = "OPTIONS"
        · simp [processRequest, hbody, hops]
        · simp only [processRequest, hbody, if_neg hops]
          by_cases hg :
            (limiterCheck limiter st.globalLim req.clientKey now).1.allowed = true
          · cases hroute : routeRequest req.method req.path with
            | ai rid =>
                rw [hroute] at hroute0
                simp [RouteTarget.isAi] at hroute0
            | healthRoot => simp [hg, hroute]
            | healthCheck => simp [hg, hroute]
            | notFound => simp [hg, hroute]
          · simp [hg]
    | malformed m => simp [processRequest, hbody]
  · refine ⟨List.replicate (aiCfg.maxRequests + 1) (pdfReq, 0), by simp, ?_, ?_⟩
    · have h0 : emptyAppState = mkAiState pdfReq.clientKey 0 := rfl
      rw [h0, processSeq_pdf_run aiCfg handle (aiCfg.maxRequests + 1) 0 (by omega)]
      intro p hp
      rw [List.mem_map] at hp
      obtain ⟨i, _, hfi⟩ := hp
      subst hfi
      by_cases hc : 0 + i + 1 ≤ aiCfg.maxRequests
      · rw [if_pos hc]
        dsimp only
        decide
      · rw [if_neg hc]
        dsimp only
        decide
    · have h0 : emptyAppState = mkAiState pdfReq.clientKey 0 := rfl
      rw [h0, processSeq_pdf_run aiCfg handle (aiCfg.maxRequests + 1) 0 (by omega)]
      rw [List.getElem?_map,
          List.getElem?_range (by omega : aiCfg.maxRequests < aiCfg.maxRequests + 1)]
      simp only [Option.map_some']
      rw [if_neg (by omega : ¬ (0 + aiCfg.maxRequests + 1 ≤ aiCfg.maxRequests))]

theorem c4_witness :
    someAiCfg.maxRequests < limiter.maxRequests ∧
    someAiCfg.windowDurationMs ≤ limiter.windowDurationMs ∧
    ((∀ (st : AppState) (req : Request) (now : Nat),
        (processRequest someAiCfg someHandle st req now).state.globalLim =
          (match req.body with
           | .malformed _ => st.globalLim
           | .wellFormed =>
               if req.method = "OPTIONS" then st.globalLim
               else (limiterCheck limiter st.globalLim req.clientKey now).2)) ∧
     (∀ (st : AppState) (req : Request) (now : Nat),
        (routeRequest req.method req.path).isAi = false →
        (processRequest someAiCfg someHandle st req now).state.aiLim = st.aiLim) ∧
     (∃ reqs : List (Request × Nat), reqs ≠ [] ∧
        (∀ p ∈ (processSeq someAiCfg someHandle emptyAppState reqs).1,
           Stage.router ∈ p.2) ∧
        (processSeq someAiCfg someHandle emptyAppState reqs).1[someAiCfg.maxRequests]? =
          some (rejectResponse someAiCfg,
            [Stage.identity, Stage.cors, Stage.globalLimiter, Stage.router,
             Stage.aiLimiter]))) :=
  ⟨by decide, by decide, c4_two_tier someAiCfg someHandle (by decide) (by decide)⟩

end MindMentor
